import Mathlib

/-!
Shallow embedding of `src/13.2/main.go`: a ticket-vending transaction
controller implemented as a finite-state machine (`TicketMachine`) with five
states and four operations (`SelectTicket`, `InsertMoney`, `Cancel`,
`DispenseTicket`).

Modelling choices:
* Go `float64` money amounts are embedded as exact rationals (`ℚ`); every
  amount appearing in the program and the spec is representable exactly, and
  the claims do not depend on floating-point rounding.
* Go maps `map[string]int` / `map[string]float64` are embedded as total
  functions `String → ℤ` / `String → ℚ`; a read of a missing key yields the
  Go zero value `0`, which the default branch of the embedding reproduces.
* Each Go method that returns an `error` and may mutate the machine through
  its pointer receiver becomes a function `TicketMachine → ... →
  TicketMachine × Option String`: the returned machine is the post-state and
  the `Option String` is the error message (`none` = Go `nil`).
* `fmt.Printf` output is ignored: it does not affect the machine state and no
  claim mentions it.
-/

namespace TicketVending

/-- The five concrete implementations of the Go `State` interface. -/
inductive State where
  | IdleState
  | WaitingForMoneyState
  | MoneyReceivedState
  | TicketDispensedState
  | TransactionCanceledState
deriving DecidableEq, Repr

/-- The machine struct `TicketMachine` from the Go source. -/
structure TicketMachine where
  State : State
  CurrentTicket : String
  CurrentPrice : ℚ
  InsertedMoney : ℚ
  Inventory : String → ℤ
  TicketPrices : String → ℚ

/-- `Name()` of each state, as returned by the Go `Name` methods. -/
def State.Name : State → String
  | .IdleState => "Idle"
  | .WaitingForMoneyState => "WaitingForMoney"
  | .MoneyReceivedState => "MoneyReceived"
  | .TicketDispensedState => "TicketDispensed"
  | .TransactionCanceledState => "TransactionCanceled"

/-- `NewTicketMachine`: fresh machine in `IdleState` with the hardcoded
inventory `{metro: 10, bus: 15, train: 5}` and prices
`{metro: 300.0, bus: 250.0, train: 1000.0}`. Go zero values for the
remaining fields: empty string and `0`. -/
def NewTicketMachine : TicketMachine where
  State := .IdleState
  CurrentTicket := ""
  CurrentPrice := 0
  InsertedMoney := 0
  Inventory := fun t => if t = "metro" then 10 else if t = "bus" then 15
    else if t = "train" then 5 else 0
  TicketPrices := fun t => if t = "metro" then 300 else if t = "bus" then 250
    else if t = "train" then 1000 else 0

/-- `(m *TicketMachine) GetTicketPrice`. -/
def TicketMachine.GetTicketPrice (m : TicketMachine) (ticketType : String) : ℚ :=
  m.TicketPrices ticketType

/-- `(m *TicketMachine) HasTicket`: `m.Inventory[ticketType] > 0`. -/
def TicketMachine.HasTicket (m : TicketMachine) (ticketType : String) : Bool :=
  m.Inventory ticketType > 0

/-- `(m *TicketMachine) GetCurrentState`: name of the current state. -/
def TicketMachine.GetCurrentState (m : TicketMachine) : String :=
  m.State.Name

/-- `(m *TicketMachine) SelectTicket`, dispatching on the current state as the
Go interface call does. Only `IdleState` can succeed. -/
def TicketMachine.SelectTicket (m : TicketMachine) (ticketType : String) :
    TicketMachine × Option String :=
  match m.State with
  | .IdleState =>
      if ¬ m.HasTicket ticketType then
        (m, some "ticket unavailable")
      else
        ({ m with CurrentTicket := ticketType,
                  CurrentPrice := m.GetTicketPrice ticketType,
                  State := .WaitingForMoneyState }, none)
  | .WaitingForMoneyState => (m, some "ticket already selected")
  | .MoneyReceivedState => (m, some "ticket already selected")
  | .TicketDispensedState => (m, some "please take your ticket and start over")
  | .TransactionCanceledState => (m, some "transaction canceled. Please start over")

/-- `(m *TicketMachine) InsertMoney`. In `WaitingForMoneyState` the amount is
added unconditionally and the state advances exactly when the new total
reaches the price; in `MoneyReceivedState` the amount is added and the state
stays put. -/
def TicketMachine.InsertMoney (m : TicketMachine) (amount : ℚ) :
    TicketMachine × Option String :=
  match m.State with
  | .IdleState => (m, some "please select a ticket first")
  | .WaitingForMoneyState =>
      let m' := { m with InsertedMoney := m.InsertedMoney + amount }
      if m'.InsertedMoney ≥ m'.CurrentPrice then
        ({ m' with State := .MoneyReceivedState }, none)
      else
        (m', none)
  | .MoneyReceivedState =>
      ({ m with InsertedMoney := m.InsertedMoney + amount }, none)
  | .TicketDispensedState => (m, some "please take your ticket")
  | .TransactionCanceledState => (m, some "transaction canceled")

/-- `(m *TicketMachine) Cancel`. -/
def TicketMachine.Cancel (m : TicketMachine) : TicketMachine × Option String :=
  match m.State with
  | .IdleState => (m, some "no active transaction")
  | .WaitingForMoneyState => ({ m with State := .TransactionCanceledState }, none)
  | .MoneyReceivedState => ({ m with State := .TransactionCanceledState }, none)
  | .TicketDispensedState => (m, some "transaction complete")
  | .TransactionCanceledState => (m, some "already canceled")

/-- `(m *TicketMachine) DispenseTicket`. Only `MoneyReceivedState` succeeds:
it moves to `TicketDispensedState`, decrements `Inventory[CurrentTicket]`,
zeroes `InsertedMoney` and clears `CurrentTicket`. -/
def TicketMachine.DispenseTicket (m : TicketMachine) : TicketMachine × Option String :=
  match m.State with
  | .IdleState => (m, some "no paid ticket")
  | .WaitingForMoneyState => (m, some "insufficient funds")
  | .MoneyReceivedState =>
      ({ m with State := .TicketDispensedState,
                Inventory := fun t => if t = m.CurrentTicket
                  then m.Inventory t - 1 else m.Inventory t,
                InsertedMoney := 0,
                CurrentTicket := "" }, none)
  | .TicketDispensedState => (m, some "ticket already dispensed")
  | .TransactionCanceledState => (m, some "no ticket")

/-- One external command, i.e. one call into the machine's public surface. -/
inductive Op where
  | SelectTicket (ticketType : String)
  | InsertMoney (amount : ℚ)
  | Cancel
  | DispenseTicket

/-- Dispatch one command, returning post-state and error. -/
def step (m : TicketMachine) : Op → TicketMachine × Option String
  | .SelectTicket t => m.SelectTicket t
  | .InsertMoney a => m.InsertMoney a
  | .Cancel => m.Cancel
  | .DispenseTicket => m.DispenseTicket

/-- Run a sequence of commands, keeping only the machine state (errors are
reported to the caller and ignored, as the demo driver does). -/
def run (m : TicketMachine) : List Op → TicketMachine
  | [] => m
  | op :: ops => run (step m op).1 ops

/-- Ghost history variable: the argument of the most recent successful
`SelectTicket` along a run starting at machine `m` with accumulator `sel`.
Used only to state the "prior selection" part of the monotonicity claim. -/
def lastSel (m : TicketMachine) (sel : Option String) : List Op → Option String
  | [] => sel
  | op :: ops =>
      lastSel (step m op).1
        (match op, (step m op).2 with
         | Op.SelectTicket t, none => some t
         | _, _ => sel) ops

attribute [simp] State.Name NewTicketMachine TicketMachine.GetTicketPrice
  TicketMachine.HasTicket TicketMachine.GetCurrentState TicketMachine.SelectTicket
  TicketMachine.InsertMoney TicketMachine.Cancel TicketMachine.DispenseTicket step run lastSel

/-! ## Helper lemmas -/

/-- A single step never increases any inventory entry; a strict decrease is by
exactly 1 and happens only on a successful `DispenseTicket` at the currently
selected ticket, from `MoneyReceivedState`. -/
theorem step_inventory (m : TicketMachine) (op : Op) (p : String) :
    (step m op).1.Inventory p ≤ m.Inventory p ∧
    ((step m op).1.Inventory p ≠ m.Inventory p →
      (step m op).1.Inventory p = m.Inventory p - 1 ∧ op = Op.DispenseTicket ∧
      (step m op).2 = none ∧ p = m.CurrentTicket ∧ m.State = State.MoneyReceivedState) := by
  obtain ⟨s, ct, cp, im, inv, tp⟩ := m
  cases op <;> cases s <;> simp_all <;> split_ifs <;> simp_all

/-- Running a concatenation of command lists is running them in sequence. -/
theorem run_append (m : TicketMachine) (l1 l2 : List Op) :
    run m (l1 ++ l2) = run (run m l1) l2 := by
  induction l1 generalizing m with
  | nil => rfl
  | cons op ops ih => simp [run, ih]

/-- Whenever a run ends in `WaitingForMoneyState` or `MoneyReceivedState`, the
currently selected ticket is exactly the one recorded by the most recent
successful `SelectTicket` of the run. -/
theorem lastSel_inv_aux (ops : List Op) (m : TicketMachine) (sel : Option String)
    (h : (m.State = State.WaitingForMoneyState ∨ m.State = State.MoneyReceivedState) →
      sel = some m.CurrentTicket) :
    ((run m ops).State = State.WaitingForMoneyState ∨
     (run m ops).State = State.MoneyReceivedState) →
    lastSel m sel ops = some (run m ops).CurrentTicket := by
  induction ops generalizing m sel with
  | nil => exact h
  | cons op ops ih =>
      intro hrun
      simp only [run, lastSel]
      apply ih
      · obtain ⟨s, ct, cp, im, inv, tp⟩ := m
        cases op <;> cases s <;> simp_all <;> split_ifs <;> simp_all
      · simpa [run] using hrun

/-- The inductive invariant behind inventory non-negativity: all counts are
non-negative, and while a selection is active the selected ticket still has
positive stock. -/
def InvOK (m : TicketMachine) : Prop :=
  (∀ p, 0 ≤ m.Inventory p) ∧
  ((m.State = State.WaitingForMoneyState ∨ m.State = State.MoneyReceivedState) →
    0 < m.Inventory m.CurrentTicket)

/-- `InvOK` is preserved by every single command. -/
theorem step_InvOK (m : TicketMachine) (op : Op) (h : InvOK m) : InvOK (step m op).1 := by
  obtain ⟨h1, h2⟩ := h
  obtain ⟨s, ct, cp, im, inv, tp⟩ := m
  cases op <;> cases s <;> simp_all [InvOK] <;> (try intro p) <;>
    (try split_ifs) <;> (try simp_all) <;> omega

/-- `InvOK` is preserved by every run. -/
theorem run_InvOK (ops : List Op) (m : TicketMachine) (h : InvOK m) : InvOK (run m ops) := by
  induction ops generalizing m with
  | nil => exact h
  | cons op ops ih => exact ih _ (step_InvOK m op h)

/-! ## Claims -/

/-- Claim C1: for every controller in the `MoneyReceivedState` (the spec's
PaymentReceived), `DispenseTicket` succeeds, moves to `TicketDispensedState`,
decrements the inventory of the selected ticket by exactly 1, resets
`InsertedMoney` to 0 and clears `CurrentTicket`; and on a fresh machine the
sequence select "metro", insert 300, dispense all succeed and leave
`Inventory "metro" = 9` in the dispensed state. -/
theorem C1_dispense_from_paymentReceived :
    (∀ m : TicketMachine, m.State = State.MoneyReceivedState →
      (m.DispenseTicket).2 = none ∧
      (m.DispenseTicket).1.State = State.TicketDispensedState ∧
      (m.DispenseTicket).1.Inventory m.CurrentTicket = m.Inventory m.CurrentTicket - 1 ∧
      (m.DispenseTicket).1.InsertedMoney = 0 ∧
      (m.DispenseTicket).1.CurrentTicket = "") ∧
    ((NewTicketMachine.SelectTicket "metro").2 = none ∧
     ((NewTicketMachine.SelectTicket "metro").1.InsertMoney 300).2 = none ∧
     ((((NewTicketMachine.SelectTicket "metro").1.InsertMoney 300).1).DispenseTicket).2
        = none ∧
     ((((NewTicketMachine.SelectTicket "metro").1.InsertMoney 300).1).DispenseTicket).1.Inventory
        "metro" = 9 ∧
     ((((NewTicketMachine.SelectTicket "metro").1.InsertMoney 300).1).DispenseTicket).1.State
        = State.TicketDispensedState) := by
  constructor
  · intro m h
    obtain ⟨s, ct, cp, im, inv, tp⟩ := m
    simp only at h
    subst h
    simp
  · norm_num

/-- Witness for C1: the happy-path machine after select "metro" and insert 300
is in `MoneyReceivedState`, and the theorem applies to it. -/
theorem C1_dispense_witness :
    ((((NewTicketMachine.SelectTicket "metro").1.InsertMoney 300).1).DispenseTicket).2
        = none ∧
    ((((NewTicketMachine.SelectTicket "metro").1.InsertMoney 300).1).DispenseTicket).1.State
        = State.TicketDispensedState :=
  ⟨(C1_dispense_from_paymentReceived.1 _ (by simp +decide)).1,
   (C1_dispense_from_paymentReceived.1 _ (by simp +decide)).2.1⟩

/-- Claim C2: whenever an operation returns an error, the machine is returned
entirely unchanged (state, selected ticket, price, inserted money, inventory
and price list included). -/
theorem C2_error_leaves_machine_unchanged (m : TicketMachine) (op : Op) (e : String)
    (h : (step m op).2 = some e) : (step m op).1 = m := by
  obtain ⟨s, ct, cp, im, inv, tp⟩ := m
  cases op <;> cases s <;> simp_all <;> split at h <;> simp_all

/-- Witness for C2: `Cancel` on a fresh (idle) machine errors and leaves the
machine unchanged. -/
theorem C2_error_unchanged_witness :
    (step NewTicketMachine Op.Cancel).2 = some "no active transaction" ∧
    (step NewTicketMachine Op.Cancel).1 = NewTicketMachine :=
  ⟨by simp,
   C2_error_leaves_machine_unchanged NewTicketMachine Op.Cancel "no active transaction"
     (by simp)⟩

/-- Claim C3: along every run from a fresh machine, each step never increases
any inventory entry; a strict decrease is by exactly 1 and occurs only on a
successful `DispenseTicket` whose most recent prior successful `SelectTicket`
chose exactly that product. -/
theorem C3_inventory_monotone (ops : List Op) (i : ℕ) (hi : i < ops.length) (p : String) :
    (run NewTicketMachine (ops.take (i + 1))).Inventory p
      ≤ (run NewTicketMachine (ops.take i)).Inventory p ∧
    ((run NewTicketMachine (ops.take (i + 1))).Inventory p
        ≠ (run NewTicketMachine (ops.take i)).Inventory p →
      (run NewTicketMachine (ops.take (i + 1))).Inventory p
        = (run NewTicketMachine (ops.take i)).Inventory p - 1 ∧
      ops.get ⟨i, hi⟩ = Op.DispenseTicket ∧
      (step (run NewTicketMachine (ops.take i)) (ops.get ⟨i, hi⟩)).2 = none ∧
      lastSel NewTicketMachine none (ops.take i) = some p) := by
  have hrun : run NewTicketMachine (ops.take (i + 1))
      = (step (run NewTicketMachine (ops.take i)) (ops.get ⟨i, hi⟩)).1 := by
    rw [List.take_succ, run_append]
    rw [List.getElem?_eq_getElem hi]
    simp [run, List.get_eq_getElem]
  rw [hrun]
  obtain ⟨hle, hdec⟩ := step_inventory (run NewTicketMachine (ops.take i)) (ops.get ⟨i, hi⟩) p
  refine ⟨hle, fun hne => ?_⟩
  obtain ⟨h1, h2, h3, h4, h5⟩ := hdec hne
  refine ⟨h1, h2, h3, ?_⟩
  rw [lastSel_inv_aux (ops.take i) NewTicketMachine none (fun hc => ?side) (Or.inr h5), ← h4]
  case side => simp at hc

/-- Witness for C3: on the happy-path trace the dispense step (index 2)
decrements `Inventory "metro"` by exactly 1 and the last successful selection
before it was "metro". -/
theorem C3_inventory_monotone_witness :
    (run NewTicketMachine
        ([Op.SelectTicket "metro", Op.InsertMoney 300, Op.DispenseTicket].take (2 + 1))).Inventory
        "metro"
      = (run NewTicketMachine
          ([Op.SelectTicket "metro", Op.InsertMoney 300, Op.DispenseTicket].take 2)).Inventory
          "metro" - 1 ∧
    lastSel NewTicketMachine none
        ([Op.SelectTicket "metro", Op.InsertMoney 300, Op.DispenseTicket].take 2)
      = some "metro" := by
  have htake3 : ([Op.SelectTicket "metro", Op.InsertMoney 300, Op.DispenseTicket].take (2 + 1))
      = [Op.SelectTicket "metro", Op.InsertMoney 300, Op.DispenseTicket] := rfl
  have htake2 : ([Op.SelectTicket "metro", Op.InsertMoney 300, Op.DispenseTicket].take 2)
      = [Op.SelectTicket "metro", Op.InsertMoney 300] := rfl
  have h := C3_inventory_monotone
    [Op.SelectTicket "metro", Op.InsertMoney 300, Op.DispenseTicket] 2 (by simp) "metro"
  have hne : (run NewTicketMachine
      ([Op.SelectTicket "metro", Op.InsertMoney 300, Op.DispenseTicket].take (2 + 1))).Inventory
      "metro"
      ≠ (run NewTicketMachine
        ([Op.SelectTicket "metro", Op.InsertMoney 300, Op.DispenseTicket].take 2)).Inventory
        "metro" := by
    rw [htake3, htake2]
    norm_num
  exact ⟨(h.2 hne).1, (h.2 hne).2.2.2⟩

/-- Claim C4: `TicketDispensedState` and `TransactionCanceledState` are
absorbing — every operation errors and leaves the machine unchanged — and a
double `Cancel` from `WaitingForMoneyState` or `MoneyReceivedState` returns
success then the "already canceled" error, with the state canceled after
both calls. -/
theorem C4_terminal_states_absorbing :
    (∀ (m : TicketMachine) (op : Op),
      (m.State = State.TicketDispensedState ∨ m.State = State.TransactionCanceledState) →
      (step m op).2 ≠ none ∧ (step m op).1 = m) ∧
    (∀ m : TicketMachine,
      (m.State = State.WaitingForMoneyState ∨ m.State = State.MoneyReceivedState) →
      (m.Cancel).2 = none ∧ (m.Cancel).1.State = State.TransactionCanceledState ∧
      ((m.Cancel).1.Cancel).2 = some "already canceled" ∧
      ((m.Cancel).1.Cancel).1.State = State.TransactionCanceledState) := by
  constructor
  · rintro ⟨s, ct, cp, im, inv, tp⟩ op (h | h) <;> simp only at h <;> subst h <;>
      cases op <;> simp
  · rintro ⟨s, ct, cp, im, inv, tp⟩ (h | h) <;> simp only at h <;> subst h <;> simp

/-- Witness for C4: after select "bus" then cancel, dispensing errors and
changes nothing, and the double-cancel behavior holds from the waiting
state. -/
theorem C4_terminal_states_witness :
    (step ((NewTicketMachine.SelectTicket "bus").1.Cancel).1 Op.DispenseTicket).2 ≠ none ∧
    (step ((NewTicketMachine.SelectTicket "bus").1.Cancel).1 Op.DispenseTicket).1
      = ((NewTicketMachine.SelectTicket "bus").1.Cancel).1 ∧
    ((NewTicketMachine.SelectTicket "bus").1.Cancel).2 = none ∧
    (((NewTicketMachine.SelectTicket "bus").1.Cancel).1.Cancel).2
      = some "already canceled" :=
  ⟨(C4_terminal_states_absorbing.1 _ Op.DispenseTicket (Or.inr (by simp +decide))).1,
   (C4_terminal_states_absorbing.1 _ Op.DispenseTicket (Or.inr (by simp +decide))).2,
   (C4_terminal_states_absorbing.2 _ (Or.inl (by simp +decide))).1,
   (C4_terminal_states_absorbing.2 _ (Or.inl (by simp +decide))).2.2.1⟩

/-- Claim C5: in `WaitingForMoneyState`, `InsertMoney amount` always succeeds
(no validation that the amount is positive), adds the amount to
`InsertedMoney`, and moves to `MoneyReceivedState` exactly when the new total
reaches the price, staying in `WaitingForMoneyState` otherwise; scenario D:
select "metro" (price 300), insert 100 stays waiting, insert 250 reaches
`MoneyReceivedState`. -/
theorem C5_insertMoney_waiting :
    (∀ (m : TicketMachine) (amount : ℚ), m.State = State.WaitingForMoneyState →
      (m.InsertMoney amount).2 = none ∧
      (m.InsertMoney amount).1.InsertedMoney = m.InsertedMoney + amount ∧
      ((m.InsertMoney amount).1.State = State.MoneyReceivedState ↔
        m.InsertedMoney + amount ≥ m.CurrentPrice) ∧
      (¬ m.InsertedMoney + amount ≥ m.CurrentPrice →
        (m.InsertMoney amount).1.State = State.WaitingForMoneyState)) ∧
    ((NewTicketMachine.SelectTicket "metro").1.CurrentPrice = 300 ∧
     ((NewTicketMachine.SelectTicket "metro").1.InsertMoney 100).1.State
        = State.WaitingForMoneyState ∧
     (((NewTicketMachine.SelectTicket "metro").1.InsertMoney 100).1.InsertMoney 250).1.State
        = State.MoneyReceivedState) := by
  refine ⟨?_, by norm_num +decide⟩
  rintro ⟨s, ct, cp, im, inv, tp⟩ amount h
  simp only at h
  subst h
  simp only [TicketMachine.InsertMoney]
  split_ifs with hge <;> simp_all

/-- Witness for C5: inserting 100 after selecting "metro" succeeds and adds
100 to the inserted total. -/
theorem C5_insertMoney_waiting_witness :
    ((NewTicketMachine.SelectTicket "metro").1.InsertMoney 100).2 = none ∧
    ((NewTicketMachine.SelectTicket "metro").1.InsertMoney 100).1.InsertedMoney
      = (NewTicketMachine.SelectTicket "metro").1.InsertedMoney + 100 :=
  ⟨(C5_insertMoney_waiting.1 _ 100 (by simp +decide)).1,
   (C5_insertMoney_waiting.1 _ 100 (by simp +decide)).2.1⟩

/-- Counterexample to C6 as stated: in scenario B (select "bus" then cancel,
both succeeding) the observability accessor returns "TransactionCanceled",
not "Canceled". -/
theorem C6_stateName_counterexample :
    (NewTicketMachine.SelectTicket "bus").2 = none ∧
    ((NewTicketMachine.SelectTicket "bus").1.Cancel).2 = none ∧
    ((NewTicketMachine.SelectTicket "bus").1.Cancel).1.GetCurrentState ≠ "Canceled" := by
  norm_num +decide

/-- Claim C6 (amended): on a fresh controller, after select "bus" succeeds and
cancel succeeds, `GetCurrentState` returns "TransactionCanceled". -/
theorem C6_stateName_amended :
    (NewTicketMachine.SelectTicket "bus").2 = none ∧
    ((NewTicketMachine.SelectTicket "bus").1.Cancel).2 = none ∧
    ((NewTicketMachine.SelectTicket "bus").1.Cancel).1.GetCurrentState
      = "TransactionCanceled" := by
  norm_num +decide

/-- Counterexample to C7 as stated: dispensing while idle errors with "no paid
ticket" (the spec's NoPaidProduct), not "insufficient funds"; and dispensing
while waiting for payment errors with "insufficient funds", not the
NoSelection error "please select a ticket first". -/
theorem C7_dispense_error_counterexample :
    NewTicketMachine.State = State.IdleState ∧
    (NewTicketMachine.DispenseTicket).2 ≠ some "insufficient funds" ∧
    (NewTicketMachine.DispenseTicket).2 = some "no paid ticket" ∧
    (NewTicketMachine.SelectTicket "bus").1.State = State.WaitingForMoneyState ∧
    ((NewTicketMachine.SelectTicket "bus").1.DispenseTicket).2
        ≠ some "please select a ticket first" ∧
    ((NewTicketMachine.SelectTicket "bus").1.DispenseTicket).2
        = some "insufficient funds" := by
  norm_num +decide

/-- Claim C7 (amended): `DispenseTicket` in `IdleState` fails with the "no
paid ticket" error (NoPaidProduct) and in `WaitingForMoneyState` with the
"insufficient funds" error (InsufficientFunds), in both cases leaving the
machine unchanged. -/
theorem C7_dispense_error_amended :
    (∀ m : TicketMachine, m.State = State.IdleState →
      m.DispenseTicket = (m, some "no paid ticket")) ∧
    (∀ m : TicketMachine, m.State = State.WaitingForMoneyState →
      m.DispenseTicket = (m, some "insufficient funds")) := by
  constructor <;> rintro ⟨s, ct, cp, im, inv, tp⟩ h <;> simp only at h <;> subst h <;> simp

/-- Witness for C7 (amended): the fresh (idle) machine and the machine after
selecting "bus" produce the two respective dispense errors. -/
theorem C7_dispense_error_witness :
    NewTicketMachine.DispenseTicket = (NewTicketMachine, some "no paid ticket") ∧
    (NewTicketMachine.SelectTicket "bus").1.DispenseTicket
      = ((NewTicketMachine.SelectTicket "bus").1, some "insufficient funds") :=
  ⟨C7_dispense_error_amended.1 NewTicketMachine rfl,
   C7_dispense_error_amended.2 _ (by simp +decide)⟩

/-- Claim C8: `Cancel` from `WaitingForMoneyState` or `MoneyReceivedState`
succeeds, moves only the state to `TransactionCanceledState`, and leaves
`InsertedMoney`, `Inventory`, `CurrentTicket` and `CurrentPrice` untouched;
scenario C: select "train", insert 1000, cancel ends canceled with
`Inventory "train" = 5`. -/
theorem C8_cancel_frame :
    (∀ m : TicketMachine,
      (m.State = State.WaitingForMoneyState ∨ m.State = State.MoneyReceivedState) →
      (m.Cancel).2 = none ∧ (m.Cancel).1.State = State.TransactionCanceledState ∧
      (m.Cancel).1.InsertedMoney = m.InsertedMoney ∧
      (m.Cancel).1.Inventory = m.Inventory ∧
      (m.Cancel).1.CurrentTicket = m.CurrentTicket ∧
      (m.Cancel).1.CurrentPrice = m.CurrentPrice) ∧
    (((NewTicketMachine.SelectTicket "train").1.InsertMoney 1000).1.State
        = State.MoneyReceivedState ∧
     ((((NewTicketMachine.SelectTicket "train").1.InsertMoney 1000).1).Cancel).2 = none ∧
     ((((NewTicketMachine.SelectTicket "train").1.InsertMoney 1000).1).Cancel).1.State
        = State.TransactionCanceledState ∧
     ((((NewTicketMachine.SelectTicket "train").1.InsertMoney 1000).1).Cancel).1.Inventory
        "train" = 5) := by
  refine ⟨?_, by norm_num +decide⟩
  rintro ⟨s, ct, cp, im, inv, tp⟩ (h | h) <;> simp only at h <;> subst h <;> simp

/-- Witness for C8: canceling after paying 1000 for "train" succeeds and
leaves the inventory function untouched. -/
theorem C8_cancel_frame_witness :
    ((((NewTicketMachine.SelectTicket "train").1.InsertMoney 1000).1).Cancel).2 = none ∧
    ((((NewTicketMachine.SelectTicket "train").1.InsertMoney 1000).1).Cancel).1.Inventory
      = (((NewTicketMachine.SelectTicket "train").1.InsertMoney 1000).1).Inventory :=
  ⟨(C8_cancel_frame.1 _ (Or.inr (by simp +decide))).1,
   (C8_cancel_frame.1 _ (Or.inr (by simp +decide))).2.2.2.1⟩

/-- Claim C9: in every machine reachable from a fresh controller by any
sequence of the four operations, every inventory entry is non-negative. -/
theorem C9_inventory_nonneg (ops : List Op) (p : String) :
    0 ≤ (run NewTicketMachine ops).Inventory p := by
  refine (run_InvOK ops NewTicketMachine ⟨fun q => ?_, fun hc => ?_⟩).1 p
  · simp only [NewTicketMachine]
    split_ifs <;> norm_num
  · simp at hc

/-- Claim C10: `InsertMoney` in `MoneyReceivedState` adds the amount without
re-checking it against the price and stays in `MoneyReceivedState`; hence
after select "metro", insert 300, insert (-300) the machine is still in
`MoneyReceivedState` with inserted money strictly below the price, and
`DispenseTicket` nevertheless succeeds and dispenses the ticket. -/
theorem C10_no_recheck_after_negative_insert :
    (∀ (m : TicketMachine) (amount : ℚ), m.State = State.MoneyReceivedState →
      (m.InsertMoney amount).2 = none ∧
      (m.InsertMoney amount).1.State = State.MoneyReceivedState ∧
      (m.InsertMoney amount).1.InsertedMoney = m.InsertedMoney + amount) ∧
    ((run NewTicketMachine [Op.SelectTicket "metro", Op.InsertMoney 300,
        Op.InsertMoney (-300)]).State = State.MoneyReceivedState ∧
     (run NewTicketMachine [Op.SelectTicket "metro", Op.InsertMoney 300,
        Op.InsertMoney (-300)]).InsertedMoney
       < (run NewTicketMachine [Op.SelectTicket "metro", Op.InsertMoney 300,
        Op.InsertMoney (-300)]).CurrentPrice ∧
     ((run NewTicketMachine [Op.SelectTicket "metro", Op.InsertMoney 300,
        Op.InsertMoney (-300)]).DispenseTicket).2 = none ∧
     ((run NewTicketMachine [Op.SelectTicket "metro", Op.InsertMoney 300,
        Op.InsertMoney (-300)]).DispenseTicket).1.Inventory "metro" = 9 ∧
     ((run NewTicketMachine [Op.SelectTicket "metro", Op.InsertMoney 300,
        Op.InsertMoney (-300)]).DispenseTicket).1.State
        = State.TicketDispensedState) := by
  refine ⟨?_, by norm_num +decide⟩
  rintro ⟨s, ct, cp, im, inv, tp⟩ amount h
  simp only at h
  subst h
  simp

/-- Witness for C10: inserting -300 after paying exactly 300 for "metro"
succeeds and keeps the machine in `MoneyReceivedState`. -/
theorem C10_no_recheck_witness :
    ((((NewTicketMachine.SelectTicket "metro").1.InsertMoney 300).1).InsertMoney (-300)).2
        = none ∧
    ((((NewTicketMachine.SelectTicket "metro").1.InsertMoney 300).1).InsertMoney (-300)).1.State
        = State.MoneyReceivedState :=
  ⟨(C10_no_recheck_after_negative_insert.1 _ (-300) (by simp +decide)).1,
   (C10_no_recheck_after_negative_insert.1 _ (-300) (by simp +decide)).2.1⟩

end TicketVending
